import Mathlib

/-!
Shallow embedding of the Event CRUD service (`src/app.js`; the variants in
`src/unnamed/part_000` have identical handler bodies).

The service is a thin Express layer over a MongoDB collection of Event
documents.  We model:

* the Mongoose schema `eventSchema` as the structure `Event` (the
  system-assigned `createdAt`/`updatedAt` timestamps are metadata outside the
  schema fields and are not modelled);
* the persistent collection as a `List Event`;
* a JSON request body for POST/PUT/PATCH as a record of optional fields
  (`Body`): `none` models an absent field, with numeric fields carrying
  integers and string fields carrying strings, matching the schema types;
* each route handler as a pure function from the store (plus an optional
  injected store-layer error, modelling the `catch (err)` branch when the
  awaited Mongoose call throws an unexpected error) to an HTTP response and
  the resulting store.

Mongoose/MongoDB behaviours embedded from their documented semantics, as the
source relies on them:
* `Event.find().sort({year:1, month:1, day:1, startTime:1})` sorts ascending
  lexicographically by that key (ties in unspecified order);
* `findOneAndUpdate(filter, body, {new:true})` treats a plain `body` as
  `{$set: body}`: it merges the supplied fields into the first matching
  document and returns the updated document, throwing a duplicate-key error
  (code 11000) if the update would violate the unique index on `eventID`;
* `findOneAndDelete` removes the first matching document;
* `save()` validates required fields first (for `String` fields a present but
  empty string also fails `required`), then inserts, and the unique index on
  `eventID` rejects a duplicate with error code 11000.
-/

/-- An Event document, translated from `eventSchema` in `src/app.js`
(lines 49-63): every field is required, `eventID` is unique. -/
structure Event where
  eventID : Int
  eventName : String
  client : String
  type : String
  venue : String
  month : Int
  day : Int
  year : Int
  startTime : String
  pax : Int
deriving Repr, DecidableEq

/-- A JSON request body restricted to the schema fields: `none` is an absent
field; present fields carry values of the schema's type. -/
structure Body where
  eventID : Option Int := none
  eventName : Option String := none
  client : Option String := none
  type : Option String := none
  venue : Option String := none
  month : Option Int := none
  day : Option Int := none
  year : Option Int := none
  startTime : Option String := none
  pax : Option Int := none
deriving Repr, DecidableEq

/-- An error thrown by the store layer: MongoDB errors carry a numeric
`code` (11000 for duplicate key); other failures may not. -/
structure JsError where
  code : Option Int := none
  message : String
deriving Repr, DecidableEq

/-- A JSON response body: `{message}`, `{message, event}` or
`{message, events}`. -/
inductive RespBody where
  | msg (m : String)
  | msgEvent (m : String) (e : Event)
  | msgEvents (m : String) (es : List Event)
deriving Repr, DecidableEq

/-- An HTTP response: status code and JSON body. -/
structure Resp where
  status : Nat
  body : RespBody
deriving Repr, DecidableEq

/-- JavaScript `parseInt` applied to a body field of numeric schema type:
`parseInt(undefined)` is `NaN` (modelled as `none`, which compares unequal
to every integer, as `NaN !== n` for all `n`); `parseInt` of an integer
number is that integer. -/
def parseIntField : Option Int → Option Int
  | none => none
  | some n => some n

/-- Model of `Event.findOne({eventID: id})`: first document matching the filter. -/
def findOne (store : List Event) (id : Int) : Option Event :=
  store.find? (fun e => e.eventID == id)

/-- The `$set` semantics of a plain update body: fields present in the body
replace the document's, absent fields keep the document's values. -/
def applyBody (e : Event) (b : Body) : Event :=
  { eventID := b.eventID.getD e.eventID
    eventName := b.eventName.getD e.eventName
    client := b.client.getD e.client
    type := b.type.getD e.type
    venue := b.venue.getD e.venue
    month := b.month.getD e.month
    day := b.day.getD e.day
    year := b.year.getD e.year
    startTime := b.startTime.getD e.startTime
    pax := b.pax.getD e.pax }

/-- Replace the first document with the given `eventID` (the one
`findOneAndUpdate` matched). -/
def replaceFirst : List Event → Int → Event → List Event
  | [], _, _ => []
  | x :: xs, id, e1 => if x.eventID == id then e1 :: xs else x :: replaceFirst xs id e1

/-- Remove the first document with the given `eventID` (the one
`findOneAndDelete` matched). -/
def removeFirst : List Event → Int → List Event
  | [], _ => []
  | x :: xs, id => if x.eventID == id then xs else x :: removeFirst xs id

/-- Outcome of `Event.findOneAndUpdate({eventID: urlId}, body, {new: true})`. -/
inductive UpdateResult where
  | notFound
  | dupKey
  | updated (ev : Event) (store2 : List Event)
deriving Repr, DecidableEq

/-- Model of `Event.findOneAndUpdate({eventID: urlId}, body, {new: true})`: find the
first document with `eventID = urlId`; if none, return `notFound`.  Otherwise
merge the body's fields into it; if that changes the indexed `eventID` to a
value already held by a document, the unique index raises a duplicate-key
error; otherwise the document is replaced in place and returned. -/
def findOneAndUpdate (store : List Event) (urlId : Int) (b : Body) : UpdateResult :=
  match store.find? (fun e => e.eventID == urlId) with
  | none => .notFound
  | some e0 =>
    let e1 := applyBody e0 b
    if e1.eventID != urlId && store.any (fun x => x.eventID == e1.eventID) then
      .dupKey
    else
      .updated e1 (replaceFirst store urlId e1)

/-- The ascending sort key of `Event.find().sort({year:1, month:1, day:1,
startTime:1})`: lexicographic on year, month, day, then the string
`startTime`. -/
def EventLE (a b : Event) : Prop :=
  a.year < b.year ∨ (a.year = b.year ∧
    (a.month < b.month ∨ (a.month = b.month ∧
      (a.day < b.day ∨ (a.day = b.day ∧ a.startTime ≤ b.startTime)))))

instance : DecidableRel EventLE := fun a b => by
  unfold EventLE; infer_instance

instance : IsTotal Event EventLE := by
  constructor
  intro a b
  unfold EventLE
  rcases lt_trichotomy a.year b.year with hy | hy | hy
  · exact Or.inl (Or.inl hy)
  · rcases lt_trichotomy a.month b.month with hm | hm | hm
    · exact Or.inl (Or.inr ⟨hy, Or.inl hm⟩)
    · rcases lt_trichotomy a.day b.day with hd | hd | hd
      · exact Or.inl (Or.inr ⟨hy, Or.inr ⟨hm, Or.inl hd⟩⟩)
      · rcases le_total a.startTime b.startTime with ht | ht
        · exact Or.inl (Or.inr ⟨hy, Or.inr ⟨hm, Or.inr ⟨hd, ht⟩⟩⟩)
        · exact Or.inr (Or.inr ⟨hy.symm, Or.inr ⟨hm.symm, Or.inr ⟨hd.symm, ht⟩⟩⟩)
      · exact Or.inr (Or.inr ⟨hy.symm, Or.inr ⟨hm.symm, Or.inl hd⟩⟩)
    · exact Or.inr (Or.inr ⟨hy.symm, Or.inl hm⟩)
  · exact Or.inr (Or.inl hy)

instance : IsTrans Event EventLE := by
  constructor
  intro a b c hab hbc
  unfold EventLE at *
  rcases hab with hy1 | ⟨hy1, hm1⟩
  · rcases hbc with hy2 | ⟨hy2, _⟩
    · exact Or.inl (hy1.trans hy2)
    · exact Or.inl (hy2 ▸ hy1)
  · rcases hbc with hy2 | ⟨hy2, hm2⟩
    · exact Or.inl (hy1 ▸ hy2)
    · refine Or.inr ⟨hy1.trans hy2, ?_⟩
      rcases hm1 with hm1 | ⟨hm1, hd1⟩
      · rcases hm2 with hm2 | ⟨hm2, _⟩
        · exact Or.inl (hm1.trans hm2)
        · exact Or.inl (hm2 ▸ hm1)
      · rcases hm2 with hm2 | ⟨hm2, hd2⟩
        · exact Or.inl (hm1 ▸ hm2)
        · refine Or.inr ⟨hm1.trans hm2, ?_⟩
          rcases hd1 with hd1 | ⟨hd1, ht1⟩
          · rcases hd2 with hd2 | ⟨hd2, _⟩
            · exact Or.inl (hd1.trans hd2)
            · exact Or.inl (hd2 ▸ hd1)
          · rcases hd2 with hd2 | ⟨hd2, ht2⟩
            · exact Or.inl (hd1 ▸ hd2)
            · exact Or.inr ⟨hd1.trans hd2, ht1.trans ht2⟩

/-- Model of `Event.find().sort({year:1, month:1, day:1, startTime:1})`: the
whole collection sorted ascending by the key. -/
def sortEvents (store : List Event) : List Event :=
  store.insertionSort EventLE

/-- Handler of `GET /api/v1/events` (`src/app.js` lines 156-163): 200 with
the sorted list; 500 with the error message if the store call throws. -/
def getAllEvents (store : List Event) (fail : Option JsError) : Resp :=
  match fail with
  | some err => ⟨500, .msg err.message⟩
  | none => ⟨200, .msgEvents "Events retrieved successfully" (sortEvents store)⟩

/-- Handler of `GET /api/v1/events/:id` (`src/app.js` lines 184-192). -/
def getEventById (store : List Event) (id : Int) (fail : Option JsError) : Resp :=
  match fail with
  | some err => ⟨500, .msg err.message⟩
  | none =>
    match findOne store id with
    | none => ⟨404, .msg "Event not found"⟩
    | some ev => ⟨200, .msgEvent "Event retrieved successfully" ev⟩

/-- Handler of `GET /api/v1/events/month/:month` (`src/app.js`
lines 213-221). -/
def getEventsByMonth (store : List Event) (m : Int) (fail : Option JsError) : Resp :=
  match fail with
  | some err => ⟨500, .msg err.message⟩
  | none =>
    let monthEvents := store.filter (fun e => e.month == m)
    if monthEvents.length == 0 then ⟨404, .msg "No events for this month"⟩
    else ⟨200, .msgEvents "Specific month events retrieved successfully" monthEvents⟩

/-- Handler of `GET /api/v1/events/client/:client` (`src/app.js`
lines 242-250). -/
def getEventsByClient (store : List Event) (c : String) (fail : Option JsError) : Resp :=
  match fail with
  | some err => ⟨500, .msg err.message⟩
  | none =>
    let clientEvents := store.filter (fun e => e.client == c)
    if clientEvents.length == 0 then ⟨404, .msg "No events listed for this client"⟩
    else ⟨200, .msgEvents "Client events retrieved successfully" clientEvents⟩

/-- Mongoose validation run by `new Event(req.body); event.save()`: every
schema field is required (a required `String` field also rejects the empty
string), yielding the document to insert, or `none` on a validation error. -/
def mkEvent (b : Body) : Option Event :=
  match b.eventID, b.eventName, b.client, b.type, b.venue, b.month, b.day,
      b.year, b.startTime, b.pax with
  | some id, some name, some cl, some ty, some ve, some mo, some da,
      some yr, some st, some px =>
    if name != "" && cl != "" && ty != "" && ve != "" && st != "" then
      some ⟨id, name, cl, ty, ve, mo, da, yr, st, px⟩
    else none
  | _, _, _, _, _, _, _, _, _, _ => none

/-- Handler of `POST /api/v1/events/events` (`src/app.js` lines 270-279):
validate, insert, 201; duplicate key (code 11000) gives 400 with
"Event ID already exists"; any other error gives 400 with its message
(the exact Mongoose validation-error text is abstracted to a constant). -/
def postEvent (store : List Event) (b : Body) (fail : Option JsError) :
    Resp × List Event :=
  match fail with
  | some err =>
    if err.code == some 11000 then (⟨400, .msg "Event ID already exists"⟩, store)
    else (⟨400, .msg err.message⟩, store)
  | none =>
    match mkEvent b with
    | none => (⟨400, .msg "Event validation failed"⟩, store)
    | some ev =>
      if store.any (fun x => x.eventID == ev.eventID) then
        (⟨400, .msg "Event ID already exists"⟩, store)
      else
        (⟨201, .msgEvent "Event added successfully" ev⟩, store ++ [ev])

/-- Handler of `PUT /api/v1/events/:id` (`src/app.js` lines 306-318):
reject with 400 unless `parseInt(req.body.eventID)` equals the parsed URL id
(this check precedes any store call), then `findOneAndUpdate`; 404 if no
document matches; errors thrown by the store call give 400. -/
def putEvent (store : List Event) (urlId : Int) (b : Body) (fail : Option JsError) :
    Resp × List Event :=
  if parseIntField b.eventID != some urlId then
    (⟨400, .msg "eventID in body must match URL ID"⟩, store)
  else
    match fail with
    | some err => (⟨400, .msg err.message⟩, store)
    | none =>
      match findOneAndUpdate store urlId b with
      | .notFound => (⟨404, .msg "Event not found"⟩, store)
      | .dupKey => (⟨400, .msg "E11000 duplicate key error"⟩, store)
      | .updated ev store2 => (⟨200, .msgEvent "Event updated successfully" ev⟩, store2)

/-- Handler of `PATCH /api/v1/events/:id` (`src/app.js` lines 352-361):
`findOneAndUpdate` with the raw body, no check on the body's `eventID`;
404 if no document matches; errors thrown by the store call give 400. -/
def patchEvent (store : List Event) (urlId : Int) (b : Body) (fail : Option JsError) :
    Resp × List Event :=
  match fail with
  | some err => (⟨400, .msg err.message⟩, store)
  | none =>
    match findOneAndUpdate store urlId b with
    | .notFound => (⟨404, .msg "Event not found"⟩, store)
    | .dupKey => (⟨400, .msg "E11000 duplicate key error"⟩, store)
    | .updated ev store2 => (⟨200, .msgEvent "Event successfully patched" ev⟩, store2)

/-- Handler of `DELETE /api/v1/events/:id` (`src/app.js` lines 382-390). -/
def deleteEvent (store : List Event) (id : Int) (fail : Option JsError) :
    Resp × List Event :=
  match fail with
  | some err => (⟨500, .msg err.message⟩, store)
  | none =>
    match store.find? (fun e => e.eventID == id) with
    | none => (⟨404, .msg "Event not found"⟩, store)
    | some _ => (⟨200, .msg "Event deleted successfully"⟩, removeFirst store id)

/-- A concrete stored event used in witnesses and counterexamples. -/
def ev5 : Event :=
  ⟨5, "Tech Conference", "Google", "Conference", "Grand Hall A", 12, 25, 2025, "09:00", 150⟩


/-! ### Helper lemmas -/

theorem find?_eventID_eq {store : List Event} {urlId : Int} {e0 : Event}
    (h : List.find? (fun e => e.eventID == urlId) store = some e0) :
    e0.eventID = urlId := by
  simpa using List.find?_some h

theorem replaceFirst_map_eventID (store : List Event) (urlId : Int) (e1 : Event)
    (h : e1.eventID = urlId) :
    (replaceFirst store urlId e1).map (fun e => e.eventID) =
      store.map (fun e => e.eventID) := by
  induction store with
  | nil => rfl
  | cons x xs ih =>
    unfold replaceFirst
    by_cases hx : x.eventID = urlId
    · simp [hx, h]
    · simp only [beq_iff_eq, hx, if_false, List.map_cons, ih]

theorem findOneAndUpdate_updated_map {store : List Event} {urlId : Int} {b : Body}
    {ev : Event} {store2 : List Event}
    (hb : b.eventID = none ∨ b.eventID = some urlId)
    (h : findOneAndUpdate store urlId b = .updated ev store2) :
    store2.map (fun e => e.eventID) = store.map (fun e => e.eventID) := by
  unfold findOneAndUpdate at h
  cases hfind : List.find? (fun e => e.eventID == urlId) store with
  | none => rw [hfind] at h; exact absurd h (by simp)
  | some e0 =>
    rw [hfind] at h
    have he0 : e0.eventID = urlId := find?_eventID_eq hfind
    have hkey : (applyBody e0 b).eventID = urlId := by
      rcases hb with hb | hb <;> simp [applyBody, hb, he0]
    simp only [hkey] at h
    split at h
    · exact absurd h (by simp)
    · injection h with h1 h2
      rw [← h2]
      exact replaceFirst_map_eventID store urlId _ hkey


/-! ### Claim theorems -/

/-- C4: a PUT request whose body `eventID` is present and differs from the
integer-parsed path id returns 400 with message "eventID in body must match
URL ID" and leaves the store unchanged, whatever the store contents and
whether or not the store call would have failed. -/
theorem put_id_mismatch_rejected (store : List Event) (urlId : Int) (b : Body)
    (fail : Option JsError) (n : Int) (hb : b.eventID = some n) (hne : n ≠ urlId) :
    putEvent store urlId b fail =
      (⟨400, .msg "eventID in body must match URL ID"⟩, store) := by
  unfold putEvent
  rw [hb]
  simp [parseIntField, hne]

theorem put_id_mismatch_rejected_witness :
    putEvent [ev5] 5 { eventID := some 7 } none =
      (⟨400, .msg "eventID in body must match URL ID"⟩, [ev5]) :=
  put_id_mismatch_rejected [ev5] 5 { eventID := some 7 } none 7 rfl (by decide)

/-- C9: a PUT request whose body omits `eventID` entirely is rejected with
400 "eventID in body must match URL ID" before any store call (so even an
injected store failure is irrelevant): `parseInt(undefined)` is `NaN`, which
never equals the parsed path id.  The store is unchanged. -/
theorem put_missing_eventID_rejected (store : List Event) (urlId : Int) (b : Body)
    (fail : Option JsError) (hb : b.eventID = none) :
    putEvent store urlId b fail =
      (⟨400, .msg "eventID in body must match URL ID"⟩, store) := by
  unfold putEvent
  rw [hb]
  simp [parseIntField]

theorem put_missing_eventID_rejected_witness :
    putEvent [ev5] 5 { venue := some "New Hall" } (some ⟨none, "boom"⟩) =
      (⟨400, .msg "eventID in body must match URL ID"⟩, [ev5]) :=
  put_missing_eventID_rejected [ev5] 5 { venue := some "New Hall" }
    (some ⟨none, "boom"⟩) rfl

/-- C5: the month and client filter endpoints return 404 (with their
empty-result messages) exactly when no stored event matches the filter, and
otherwise 200 with the non-empty matching set; they never return 200 with an
empty list. -/
theorem filter_empty_iff_404 (store : List Event) (m : Int) (c : String) :
    ((getEventsByMonth store m none).status = 404 ↔
      store.filter (fun e => e.month == m) = []) ∧
    (store.filter (fun e => e.month == m) = [] →
      getEventsByMonth store m none = ⟨404, .msg "No events for this month"⟩) ∧
    (store.filter (fun e => e.month == m) ≠ [] →
      getEventsByMonth store m none =
        ⟨200, .msgEvents "Specific month events retrieved successfully"
          (store.filter (fun e => e.month == m))⟩) ∧
    ((getEventsByClient store c none).status = 404 ↔
      store.filter (fun e => e.client == c) = []) ∧
    (store.filter (fun e => e.client == c) = [] →
      getEventsByClient store c none = ⟨404, .msg "No events listed for this client"⟩) ∧
    (store.filter (fun e => e.client == c) ≠ [] →
      getEventsByClient store c none =
        ⟨200, .msgEvents "Client events retrieved successfully"
          (store.filter (fun e => e.client == c))⟩) := by
  unfold getEventsByMonth getEventsByClient
  by_cases hm : store.filter (fun e => e.month == m) = [] <;>
    by_cases hc : store.filter (fun e => e.client == c) = [] <;>
      simp [hm, hc, List.length_eq_zero]

theorem filter_empty_iff_404_witness :
    getEventsByMonth [ev5] 12 none =
      ⟨200, .msgEvents "Specific month events retrieved successfully" [ev5]⟩ ∧
    getEventsByClient [ev5] "IBM" none =
      ⟨404, .msg "No events listed for this client"⟩ :=
  ⟨(filter_empty_iff_404 [ev5] 12 "IBM").2.2.1 (by decide),
   (filter_empty_iff_404 [ev5] 12 "IBM").2.2.2.2.1 (by decide)⟩

/-- C8: a PATCH whose body supplies only `venue` succeeds with 200 and the
patched record equals the stored one with only `venue` replaced: every other
field, `eventID` included, keeps its previous value, and only that document
of the store is rewritten. -/
theorem patch_venue_only_frame (store : List Event) (urlId : Int) (e0 : Event)
    (v : String)
    (hfind : List.find? (fun e => e.eventID == urlId) store = some e0) :
    patchEvent store urlId { venue := some v } none =
      (⟨200, .msgEvent "Event successfully patched" { e0 with venue := v }⟩,
        replaceFirst store urlId { e0 with venue := v }) := by
  have he0 : e0.eventID = urlId := find?_eventID_eq hfind
  have happ : applyBody e0 { venue := some v } = { e0 with venue := v } := by
    simp [applyBody]
  unfold patchEvent findOneAndUpdate
  rw [hfind]
  simp [happ, he0]

theorem patch_venue_only_frame_witness :
    patchEvent [ev5] 5 { venue := some "New Hall" } none =
      (⟨200, .msgEvent "Event successfully patched" { ev5 with venue := "New Hall" }⟩,
        [{ ev5 with venue := "New Hall" }]) :=
  patch_venue_only_frame [ev5] 5 ev5 "New Hall" rfl

/-- C7: when the store call throws an unclassified (non-duplicate-key)
error, the four read handlers and the DELETE handler answer 500 and the three
write handlers answer 400; each response body is `{message: err.message}`
and no store state changes.  (For PUT the body must pass the eventID check,
since that check precedes the store call.) -/
theorem store_failure_statuses (store : List Event) (id m urlId : Int)
    (c : String) (b : Body) (err : JsError)
    (hcode : err.code ≠ some 11000)
    (hb : parseIntField b.eventID = some urlId) :
    getAllEvents store (some err) = ⟨500, .msg err.message⟩ ∧
    getEventById store id (some err) = ⟨500, .msg err.message⟩ ∧
    getEventsByMonth store m (some err) = ⟨500, .msg err.message⟩ ∧
    getEventsByClient store c (some err) = ⟨500, .msg err.message⟩ ∧
    deleteEvent store id (some err) = (⟨500, .msg err.message⟩, store) ∧
    postEvent store b (some err) = (⟨400, .msg err.message⟩, store) ∧
    putEvent store urlId b (some err) = (⟨400, .msg err.message⟩, store) ∧
    patchEvent store urlId b (some err) = (⟨400, .msg err.message⟩, store) := by
  refine ⟨rfl, rfl, rfl, rfl, rfl, ?_, ?_, rfl⟩
  · unfold postEvent
    simp [hcode]
  · unfold putEvent
    rw [hb]
    simp

theorem store_failure_statuses_witness :
    getAllEvents [ev5] (some ⟨none, "boom"⟩) = ⟨500, .msg "boom"⟩ ∧
    putEvent [ev5] 5 { eventID := some 5 } (some ⟨none, "boom"⟩) =
      (⟨400, .msg "boom"⟩, [ev5]) :=
  ⟨(store_failure_statuses [ev5] 5 12 5 "Google" { eventID := some 5 }
      ⟨none, "boom"⟩ (by decide) rfl).1,
   (store_failure_statuses [ev5] 5 12 5 "Google" { eventID := some 5 }
      ⟨none, "boom"⟩ (by decide) rfl).2.2.2.2.2.2.1⟩

/-- Shared helper: a PUT whose body `eventID` equals the URL id, against a
store holding a matching document, reaches `findOneAndUpdate` and succeeds:
the body is merged into the matched document and that document alone is
replaced. -/
theorem putEvent_found_eq (store : List Event) (urlId : Int) (b : Body) (e0 : Event)
    (hbid : b.eventID = some urlId)
    (hfind : List.find? (fun e => e.eventID == urlId) store = some e0) :
    putEvent store urlId b none =
      (⟨200, .msgEvent "Event updated successfully" (applyBody e0 b)⟩,
        replaceFirst store urlId (applyBody e0 b)) := by
  have hkey : (applyBody e0 b).eventID = urlId := by simp [applyBody, hbid]
  unfold putEvent
  rw [hbid]
  simp only [parseIntField, bne_self_eq_false, Bool.false_eq_true, if_false]
  unfold findOneAndUpdate
  rw [hfind]
  simp [hkey]

/-- C3: creating an event, then creating a second one with the same
`eventID` (both bodies passing schema validation, the id initially absent
from the store), returns 201 with the stored record, then 400 with
"Event ID already exists", and the final store holds exactly one record
with that `eventID`. -/
theorem post_duplicate_eventID (store : List Event) (b1 b2 : Body) (e1 e2 : Event)
    (h1 : mkEvent b1 = some e1) (h2 : mkEvent b2 = some e2)
    (hid : e2.eventID = e1.eventID)
    (hfree : store.any (fun x => x.eventID == e1.eventID) = false) :
    postEvent store b1 none =
      (⟨201, .msgEvent "Event added successfully" e1⟩, store ++ [e1]) ∧
    postEvent (store ++ [e1]) b2 none =
      (⟨400, .msg "Event ID already exists"⟩, store ++ [e1]) ∧
    ((store ++ [e1]).filter (fun x => x.eventID == e1.eventID)).length = 1 := by
  have hnil : store.filter (fun x => x.eventID == e1.eventID) = [] := by
    rw [List.filter_eq_nil_iff]
    simpa using List.any_eq_false.mp hfree
  refine ⟨?_, ?_, ?_⟩
  · unfold postEvent
    rw [h1]
    simp [hfree]
  · unfold postEvent
    rw [h2]
    have hdup : (store ++ [e1]).any (fun x => x.eventID == e2.eventID) = true := by
      simp [hid]
    simp [hdup]
  · rw [List.filter_append, hnil]
    simp

theorem post_duplicate_eventID_witness :
    postEvent [] ⟨some 5, some "Tech Conference", some "Google", some "Conference",
        some "Grand Hall A", some 12, some 25, some 2025, some "09:00", some 150⟩
        none =
      (⟨201, .msgEvent "Event added successfully" ev5⟩, [ev5]) ∧
    postEvent [ev5] ⟨some 5, some "Gala", some "IBM", some "Party", some "Hall B",
        some 1, some 2, some 2026, some "18:00", some 40⟩ none =
      (⟨400, .msg "Event ID already exists"⟩, [ev5]) :=
  ⟨(post_duplicate_eventID []
      ⟨some 5, some "Tech Conference", some "Google", some "Conference",
        some "Grand Hall A", some 12, some 25, some 2025, some "09:00", some 150⟩
      ⟨some 5, some "Gala", some "IBM", some "Party", some "Hall B",
        some 1, some 2, some 2026, some "18:00", some 40⟩
      ev5 ⟨5, "Gala", "IBM", "Party", "Hall B", 1, 2, 2026, "18:00", 40⟩
      rfl rfl rfl rfl).1,
   (post_duplicate_eventID []
      ⟨some 5, some "Tech Conference", some "Google", some "Conference",
        some "Grand Hall A", some 12, some 25, some 2025, some "09:00", some 150⟩
      ⟨some 5, some "Gala", some "IBM", some "Party", some "Hall B",
        some 1, some 2, some 2026, some "18:00", some 40⟩
      ev5 ⟨5, "Gala", "IBM", "Party", "Hall B", 1, 2, 2026, "18:00", 40⟩
      rfl rfl rfl rfl).2.1⟩

/-- C10: a PUT that passes the eventID check against an existing record
merges the supplied fields into that record: every field absent from the
body keeps the value the stored record had before the update. -/
theorem put_merge_keeps_absent_fields (store : List Event) (urlId : Int) (b : Body)
    (e0 : Event)
    (hb : parseIntField b.eventID = some urlId)
    (hfind : List.find? (fun e => e.eventID == urlId) store = some e0) :
    ∃ ev, putEvent store urlId b none =
        (⟨200, .msgEvent "Event updated successfully" ev⟩,
          replaceFirst store urlId ev) ∧
      (b.eventName = none → ev.eventName = e0.eventName) ∧
      (b.client = none → ev.client = e0.client) ∧
      (b.type = none → ev.type = e0.type) ∧
      (b.venue = none → ev.venue = e0.venue) ∧
      (b.month = none → ev.month = e0.month) ∧
      (b.day = none → ev.day = e0.day) ∧
      (b.year = none → ev.year = e0.year) ∧
      (b.startTime = none → ev.startTime = e0.startTime) ∧
      (b.pax = none → ev.pax = e0.pax) := by
  have hbid : b.eventID = some urlId := by
    cases hbe : b.eventID with
    | none => rw [hbe] at hb; exact absurd hb (by simp [parseIntField])
    | some n => rw [hbe] at hb; simpa [parseIntField] using hb
  refine ⟨applyBody e0 b, putEvent_found_eq store urlId b e0 hbid hfind,
    ?_, ?_, ?_, ?_, ?_, ?_, ?_, ?_, ?_⟩ <;>
    intro h <;> simp [applyBody, h]

theorem put_merge_keeps_absent_fields_witness :
    ∃ ev, putEvent [ev5] 5 { eventID := some 5, pax := some 80 } none =
        (⟨200, .msgEvent "Event updated successfully" ev⟩, replaceFirst [ev5] 5 ev) ∧
      ev.venue = ev5.venue :=
  match put_merge_keeps_absent_fields [ev5] 5 { eventID := some 5, pax := some 80 }
      ev5 rfl rfl with
  | ⟨ev, heq, _, _, _, hv, _⟩ => ⟨ev, heq, hv rfl⟩

/-- C2 counterexample: a PUT body containing only `eventID` — missing every
other required field of the schema — is not rejected with 400: the handler
answers 200 and performs the (empty) merge.  The claim's required-field
check does not exist in the code. -/
theorem put_missing_required_fields_cex :
    putEvent [ev5] 5 { eventID := some 5 } none =
      (⟨200, .msgEvent "Event updated successfully" ev5⟩, [ev5]) := by decide

/-- C2 amended: the PUT handler checks only that `parseInt(req.body.eventID)`
equals the integer-parsed path id; when that holds and a record with that
`eventID` exists, the request succeeds with 200 even if every other required
field is absent from the body. -/
theorem put_only_checks_eventID (store : List Event) (urlId : Int) (b : Body)
    (e0 : Event)
    (hb : parseIntField b.eventID = some urlId)
    (hfind : List.find? (fun e => e.eventID == urlId) store = some e0) :
    (putEvent store urlId b none).1.status = 200 := by
  have hbid : b.eventID = some urlId := by
    cases hbe : b.eventID with
    | none => rw [hbe] at hb; exact absurd hb (by simp [parseIntField])
    | some n => rw [hbe] at hb; simpa [parseIntField] using hb
  rw [putEvent_found_eq store urlId b e0 hbid hfind]

theorem put_only_checks_eventID_witness :
    (putEvent [ev5] 5 { eventID := some 5 } none).1.status = 200 :=
  put_only_checks_eventID [ev5] 5 { eventID := some 5 } ev5 rfl rfl

/-- C1 counterexample: the PATCH handler never inspects the body's
`eventID`, so a PATCH carrying a fresh `eventID` succeeds (200) and changes
the stored record's `eventID`: the store held the event with `eventID = 5`
and afterwards holds it with `eventID = 99`. -/
theorem patch_changes_eventID_cex :
    ev5.eventID = 5 ∧
    (patchEvent [ev5] 5 { eventID := some 99 } none).1.status = 200 ∧
    (patchEvent [ev5] 5 { eventID := some 99 } none).2 =
      [{ ev5 with eventID := 99 }] := by decide

/-- C1 amended: a successful PUT never changes any record's `eventID`
(unconditionally: the handler requires the body's `eventID` to parse equal
to the URL id, which is the filter key); a PATCH preserves all `eventID`s
whenever the body does not supply an `eventID` field — but a PATCH body
carrying a different `eventID` can change it. -/
theorem update_preserves_eventID (store : List Event) (urlId : Int) (b : Body)
    (fail : Option JsError) :
    (putEvent store urlId b fail).2.map (fun e => e.eventID) =
      store.map (fun e => e.eventID) ∧
    (b.eventID = none →
      (patchEvent store urlId b fail).2.map (fun e => e.eventID) =
        store.map (fun e => e.eventID)) := by
  constructor
  · unfold putEvent
    cases hbe : b.eventID with
    | none => simp [parseIntField]
    | some n =>
      by_cases hn : n = urlId
      · simp only [parseIntField, hn, bne_self_eq_false, Bool.false_eq_true, if_false]
        cases fail with
        | some err => rfl
        | none =>
          cases hupd : findOneAndUpdate store urlId b with
          | notFound => simp
          | dupKey => simp
          | updated ev store2 =>
            simpa using findOneAndUpdate_updated_map (Or.inr (hn ▸ hbe)) hupd
      · simp [parseIntField, hn]
  · intro hb
    unfold patchEvent
    cases fail with
    | some err => rfl
    | none =>
      cases hupd : findOneAndUpdate store urlId b with
      | notFound => rfl
      | dupKey => rfl
      | updated ev store2 =>
        simpa using findOneAndUpdate_updated_map (Or.inl hb) hupd

theorem update_preserves_eventID_witness :
    (putEvent [ev5] 5 { eventID := some 5, venue := some "Hall B" } none).2.map
        (fun e => e.eventID) = [ev5].map (fun e => e.eventID) ∧
    (patchEvent [ev5] 5 { venue := some "Hall B" } none).2.map
        (fun e => e.eventID) = [ev5].map (fun e => e.eventID) :=
  ⟨(update_preserves_eventID [ev5] 5 { eventID := some 5, venue := some "Hall B" }
      none).1,
   (update_preserves_eventID [ev5] 5 { venue := some "Hall B" } none).2 rfl⟩

/-- C6: `GET /api/v1/events` answers 200 on every store (the empty one
included) and its `events` payload is a permutation of the stored collection
sorted ascending by the key (year, month, day, startTime) — so the response
order does not depend on insertion order. -/
theorem get_all_sorted (store : List Event) :
    (getAllEvents store none).status = 200 ∧
    ∃ es, (getAllEvents store none).body =
        .msgEvents "Events retrieved successfully" es ∧
      es.Perm store ∧ List.Sorted EventLE es :=
  ⟨rfl, sortEvents store, rfl, List.perm_insertionSort EventLE store,
    List.sorted_insertionSort EventLE store⟩
